import Mathlib

/-!
Shallow embedding of the kssd drain driver (Go package `driver`).

The driver answers two remote calls, StartLifecycleTransition and
EndLifecycleTransition, and drives a node through drain / uncordon
lifecycles by calling the cluster API (get node, update node, list pods,
evict pod).  The cluster API is modelled as an explicit record of
state-passing operations (`Client σ`); the driver's in-memory progress
state is the `DrainService` structure.  The background eviction goroutine
launched by `startDrain` is modelled by the `sweep` field of a handler's
result: the node name it would sweep, `none` when no sweep is launched.
-/

namespace Driver

/-- Owner reference of a pod; only the controller kind is relevant. -/
structure OwnerReference where
  kind : String
deriving Repr, DecidableEq

/-- Observed pod record: the attributes the driver reads. -/
structure Pod where
  name : String
  ns : String
  nodeName : String
  annotations : List (String × String)
  ownerReferences : List OwnerReference
  deletionTimestamp : Option Nat
  phase : String
deriving Repr, DecidableEq

/-- Node record: the single relevant attribute. -/
structure NodeRec where
  unschedulable : Bool
deriving Repr, DecidableEq

/-- podInfo holds the name and namespace of a pod for eviction. -/
structure podInfo where
  name : String
  ns : String
deriving Repr, DecidableEq

/-- Outcome of the cluster eviction call `EvictV1`: success, a NotFound
error, or any other error with its message. -/
inductive EvictOutcome where
  | ok
  | notFound
  | err (msg : String)
deriving Repr, DecidableEq

/-- The cluster API consumed by the driver, as state-passing operations
over an abstract cluster state `σ`.  Failures are returned as values. -/
structure Client (σ : Type) where
  getNode : String → σ → Except String NodeRec × σ
  updateNode : String → NodeRec → σ → Except String Unit × σ
  listPods : String → σ → Except String (List Pod) × σ
  evictV1 : podInfo → Option Int → σ → EvictOutcome × σ

/-- DrainService: configuration plus the lock-guarded progress state
(active event id, per-pod eviction error map). -/
structure DrainService where
  nodeName : String
  gracePeriod : Int
  activeEvent : String
  evictionErrors : List (String × String)
deriving Repr, DecidableEq

/-- Response of a lifecycle transition call. -/
structure LifecycleTransitionResponse where
  lifecycleCondition : String := ""
  nodeName : String := ""
  error : String := ""
deriving Repr, DecidableEq

/-- Request of a StartLifecycleTransition call. -/
structure StartLifecycleTransitionRequest where
  transitionName : String
  eventName : String
  nodeName : String
  start : String
deriving Repr, DecidableEq

/-- Request of an EndLifecycleTransition call.  `endLabel` embeds the
request's `End` field (GetEnd in the Go source); `end` is reserved. -/
structure EndLifecycleTransitionRequest where
  transitionName : String
  eventName : String
  nodeName : String
  start : String
  endLabel : String
deriving Repr, DecidableEq

/-- Drain transition start condition. -/
def DrainStarted : String := "drain-started"

/-- Drain transition end condition. -/
def DrainComplete : String := "drain-complete"

/-- Uncordon transition start condition. -/
def Uncordoning : String := "uncordoning"

/-- Uncordon transition end condition. -/
def MaintenanceComplete : String := "maintenance-complete"

/-- Annotation key marking a mirror pod. -/
def mirrorAnnotationKey : String := "kubernetes.io/config.mirror"

/-- The eviction-eligibility predicate applied by `listEvictablePods`:
a pod is skipped when it is a mirror pod, is DaemonSet-owned, is already
terminating, or is in phase Succeeded or Failed. -/
def isEvictable (p : Pod) : Bool :=
  if (p.annotations.lookup mirrorAnnotationKey).isSome then false
  else if p.ownerReferences.any (fun ref => ref.kind == "DaemonSet") then false
  else if p.deletionTimestamp.isSome then false
  else if p.phase == "Succeeded" || p.phase == "Failed" then false
  else true

/-- listEvictablePods: list the pods on the node (field selector
spec.nodeName) and keep the evictable ones, as name/namespace pairs. -/
def listEvictablePods (c : Client σ) (nodeName : String) (s : σ) :
    Except String (List podInfo) × σ :=
  match c.listPods nodeName s with
  | (.error e, s₁) => (.error e, s₁)
  | (.ok pods, s₁) =>
      (.ok ((pods.filter isEvictable).map (fun p => { name := p.name, ns := p.ns })), s₁)

/-- cordonNode: read the node; if already unschedulable return success
without a write, else set unschedulable and write. -/
def cordonNode (c : Client σ) (nodeName : String) (s : σ) : Except String Unit × σ :=
  match c.getNode nodeName s with
  | (.error e, s₁) => (.error e, s₁)
  | (.ok node, s₁) =>
      if node.unschedulable then (.ok (), s₁)
      else
        match c.updateNode nodeName { node with unschedulable := true } s₁ with
        | (.error e, s₂) => (.error e, s₂)
        | (.ok _, s₂) => (.ok (), s₂)

/-- uncordonNode: read the node; if already schedulable return success
without a write, else clear unschedulable and write. -/
def uncordonNode (c : Client σ) (nodeName : String) (s : σ) : Except String Unit × σ :=
  match c.getNode nodeName s with
  | (.error e, s₁) => (.error e, s₁)
  | (.ok node, s₁) =>
      if !node.unschedulable then (.ok (), s₁)
      else
        match c.updateNode nodeName { node with unschedulable := false } s₁ with
        | (.error e, s₂) => (.error e, s₂)
        | (.ok _, s₂) => (.ok (), s₂)

/-- deleteOptions: the grace period passed to evictions; a negative
configured grace period means "use each pod's own default" (none). -/
def deleteOptions (d : DrainService) : Option Int :=
  if d.gracePeriod ≥ 0 then some d.gracePeriod else none

/-- evictPod: send an eviction for one pod; a NotFound error is treated
as success (the pod is already gone). -/
def evictPod (c : Client σ) (d : DrainService) (p : podInfo) (s : σ) :
    Option String × σ :=
  match c.evictV1 p (deleteOptions d) s with
  | (.ok, s₁) => (none, s₁)
  | (.notFound, s₁) => (none, s₁)
  | (.err m, s₁) => (some m, s₁)

/-- Key of a pod in the eviction error map: namespace/name. -/
def podKey (p : podInfo) : String := p.ns ++ "/" ++ p.name

/-- Assignment into the error map with Go map semantics: replace the
existing entry for the key, else append. -/
def insertErr : List (String × String) → String → String → List (String × String)
  | [], k, v => [(k, v)]
  | (k₀, v₀) :: rest, k, v =>
      if k₀ = k then (k, v) :: rest else (k₀, v₀) :: insertErr rest k v

/-- The sequential eviction loop of evictAllPods: evict each pod in turn,
recording failures in the error map and counting outcomes. -/
def evictLoop (c : Client σ) (d : DrainService) (pods : List podInfo) (s : σ)
    (evicted failed : Nat) : (Nat × Nat) × DrainService × σ :=
  match pods with
  | [] => ((evicted, failed), d, s)
  | p :: rest =>
      match evictPod c d p s with
      | (some e, s₁) =>
          evictLoop c { d with evictionErrors := insertErr d.evictionErrors (podKey p) e }
            rest s₁ evicted (failed + 1)
      | (none, s₁) => evictLoop c d rest s₁ (evicted + 1) failed

/-- evictAllPods: list the evictable pods and evict each one, returning
(evicted, failed, total) counts; a listing failure yields (0, 0, 0). -/
def evictAllPods (c : Client σ) (d : DrainService) (nodeName : String) (s : σ) :
    (Nat × Nat × Nat) × DrainService × σ :=
  match listEvictablePods c nodeName s with
  | (.error _, s₁) => ((0, 0, 0), d, s₁)
  | (.ok pods, s₁) =>
      let r := evictLoop c d pods s₁ 0 0
      ((r.1.1, r.1.2, pods.length), r.2.1, r.2.2)

/-- Result of one phase handler: the response, the updated driver state,
the cluster state, and the background sweep launched (the node name the
goroutine would sweep, `none` when no goroutine is started). -/
structure HandlerResult (σ : Type) where
  resp : LifecycleTransitionResponse
  svc : DrainService
  state : σ
  sweep : Option String := none

/-- startDrain: record the event id and clear the error map, cordon the
node (failure returns an error response), then launch the background
eviction sweep and return the start condition without waiting on it. -/
def startDrain (c : Client σ) (d : DrainService)
    (req : StartLifecycleTransitionRequest) (targetNode : String) (s : σ) :
    HandlerResult σ :=
  let d₁ := { d with activeEvent := req.eventName, evictionErrors := [] }
  match cordonNode c targetNode s with
  | (.error e, s₁) =>
      { resp := { nodeName := targetNode, error := "cordon node: " ++ e },
        svc := d₁, state := s₁ }
  | (.ok _, s₁) =>
      { resp := { lifecycleCondition := req.start, nodeName := targetNode },
        svc := d₁, state := s₁, sweep := some targetNode }

/-- startUncordon: uncordon the node and return the uncordoning
condition; a failure is returned inside the response. -/
def startUncordon (c : Client σ) (d : DrainService)
    (req : StartLifecycleTransitionRequest) (targetNode : String) (s : σ) :
    HandlerResult σ :=
  match uncordonNode c targetNode s with
  | (.error e, s₁) =>
      { resp := { nodeName := targetNode, error := "uncordon node: " ++ e },
        svc := d, state := s₁ }
  | (.ok _, s₁) =>
      { resp := { lifecycleCondition := req.start, nodeName := targetNode },
        svc := d, state := s₁ }

/-- endDrain: list the currently evictable pods; if none remain, clear
the active event and return the end condition, else return the start
condition again. -/
def endDrain (c : Client σ) (d : DrainService)
    (req : EndLifecycleTransitionRequest) (targetNode : String) (s : σ) :
    HandlerResult σ :=
  match listEvictablePods c targetNode s with
  | (.error e, s₁) =>
      { resp := { nodeName := targetNode, error := "list pods: " ++ e },
        svc := d, state := s₁ }
  | (.ok pods, s₁) =>
      if pods.length = 0 then
        { resp := { lifecycleCondition := req.endLabel, nodeName := targetNode },
          svc := { d with activeEvent := "" }, state := s₁ }
      else
        { resp := { lifecycleCondition := req.start, nodeName := targetNode },
          svc := d, state := s₁ }

/-- endUncordon: read the node; if schedulable return the end condition,
else re-issue uncordon and return the start condition again; a failure of
the read or of the re-issued uncordon is returned inside the response. -/
def endUncordon (c : Client σ) (d : DrainService)
    (req : EndLifecycleTransitionRequest) (targetNode : String) (s : σ) :
    HandlerResult σ :=
  match c.getNode targetNode s with
  | (.error e, s₁) =>
      { resp := { nodeName := targetNode, error := "get node: " ++ e },
        svc := d, state := s₁ }
  | (.ok node, s₁) =>
      if !node.unschedulable then
        { resp := { lifecycleCondition := req.endLabel, nodeName := targetNode },
          svc := d, state := s₁ }
      else
        match uncordonNode c targetNode s₁ with
        | (.error e, s₂) =>
            { resp := { nodeName := targetNode, error := "uncordon node: " ++ e },
              svc := d, state := s₂ }
        | (.ok _, s₂) =>
            { resp := { lifecycleCondition := req.start, nodeName := targetNode },
              svc := d, state := s₂ }

/-- StartLifecycleTransition entry point: resolve the target node (an
empty request node name is replaced by the driver's configured node),
then dispatch on the start condition label; an unrecognized label is a
call-level error with no response payload. -/
def StartLifecycleTransition (c : Client σ) (d : DrainService)
    (req : StartLifecycleTransitionRequest) (s : σ) :
    Except String (HandlerResult σ) :=
  let targetNode := if req.nodeName = "" then d.nodeName else req.nodeName
  if req.start = Uncordoning then .ok (startUncordon c d req targetNode s)
  else if req.start = DrainStarted then .ok (startDrain c d req targetNode s)
  else .error ("driver does not support transition \"" ++ req.start ++
    "\" in StartLifecycleTransition")

/-- EndLifecycleTransition entry point: resolve the target node (an
empty request node name is replaced by the driver's configured node),
then dispatch on the end condition label; an unrecognized label is a
call-level error with no response payload. -/
def EndLifecycleTransition (c : Client σ) (d : DrainService)
    (req : EndLifecycleTransitionRequest) (s : σ) :
    Except String (HandlerResult σ) :=
  let targetNode := if req.nodeName = "" then d.nodeName else req.nodeName
  if req.endLabel = MaintenanceComplete then .ok (endUncordon c d req targetNode s)
  else if req.endLabel = DrainComplete then .ok (endDrain c d req targetNode s)
  else .error ("driver does not support transition \"" ++ req.endLabel ++
    "\" in EndLifecycleTransition")

/-- A concrete single-node cluster used to observe the driver's effects:
the node record, the pod population, a counter of node writes, and a
fixed outcome for each eviction. -/
structure Cluster where
  node : NodeRec
  pods : List Pod
  nodeWrites : Nat
  evictRes : podInfo → EvictOutcome

/-- The well-behaved client over `Cluster`: reads succeed, node writes
are counted, the pod listing filters by spec.nodeName, and evictions
return the outcome fixed by the cluster state. -/
def simClient : Client Cluster where
  getNode := fun _ s => (.ok s.node, s)
  updateNode := fun _ n s => (.ok (), { s with node := n, nodeWrites := s.nodeWrites + 1 })
  listPods := fun nodeName s => (.ok (s.pods.filter (fun p => p.nodeName == nodeName)), s)
  evictV1 := fun p _ s => (s.evictRes p, s)

/-- A client whose every operation fails with the given message, used to
exercise the failure branches of the handlers. -/
def failClient (msg : String) : Client Unit where
  getNode := fun _ s => (.error msg, s)
  updateNode := fun _ _ s => (.error msg, s)
  listPods := fun _ s => (.error msg, s)
  evictV1 := fun _ _ s => (.err msg, s)

/-- A client over a trivial state whose eviction call always reports
NotFound and whose other operations succeed on a schedulable node. -/
def notFoundClient : Client Unit where
  getNode := fun _ s => (.ok { unschedulable := false }, s)
  updateNode := fun _ _ s => (.ok (), s)
  listPods := fun _ s => (.ok [], s)
  evictV1 := fun _ _ s => (.notFound, s)

/-- Sample cluster: cordoned node, no pods, all evictions succeed. -/
def clusterCordoned : Cluster :=
  { node := { unschedulable := true }, pods := [], nodeWrites := 0,
    evictRes := fun _ => .ok }

/-- Sample cluster: schedulable node, no pods, all evictions succeed. -/
def clusterSched : Cluster :=
  { node := { unschedulable := false }, pods := [], nodeWrites := 0,
    evictRes := fun _ => .ok }

/-- Sample driver state with no active event. -/
def svc0 : DrainService :=
  { nodeName := "n1", gracePeriod := -1, activeEvent := "", evictionErrors := [] }

/-- Sample start request for the drain transition. -/
def startReqDrain : StartLifecycleTransitionRequest :=
  { transitionName := "drain", eventName := "ev1", nodeName := "n1",
    start := DrainStarted }

/-- Sample end request for the drain transition. -/
def endReqDrain : EndLifecycleTransitionRequest :=
  { transitionName := "drain", eventName := "ev1", nodeName := "n1",
    start := DrainStarted, endLabel := DrainComplete }

/-- Sample end request for the uncordon transition. -/
def endReqUncordon : EndLifecycleTransitionRequest :=
  { transitionName := "uncordon", eventName := "ev2", nodeName := "n1",
    start := Uncordoning, endLabel := MaintenanceComplete }

/-- Sample start request with an unrecognized condition label. -/
def startReqBad : StartLifecycleTransitionRequest :=
  { transitionName := "bogus", eventName := "ev3", nodeName := "n1",
    start := "no-such-condition" }

/-- Sample end request with an unrecognized condition label. -/
def endReqBad : EndLifecycleTransitionRequest :=
  { transitionName := "bogus", eventName := "ev3", nodeName := "n1",
    start := "no-such-condition", endLabel := "no-such-condition" }

/-- Sample ordinary running pod on node n1. -/
def podOrdinary : Pod :=
  { name := "app", ns := "default", nodeName := "n1", annotations := [],
    ownerReferences := [], deletionTimestamp := none, phase := "Running" }

/-- Second sample ordinary pod. -/
def podB : Pod := { podOrdinary with name := "app-b" }

/-- Third sample ordinary pod. -/
def podC : Pod := { podOrdinary with name := "app-c" }

/-- Sample cluster for the sweep: three evictable pods on a cordoned
node, the second of which fails eviction. -/
def clusterMixed : Cluster :=
  { node := { unschedulable := true },
    pods := [podOrdinary, podB, podC],
    nodeWrites := 0,
    evictRes := fun p => if p.name = "app-b" then .err "pdb blocked" else .ok }

/-- The eligible pods of `clusterMixed` on node n1. -/
def podInfos3 : List podInfo :=
  [{ name := "app", ns := "default" }, { name := "app-b", ns := "default" },
   { name := "app-c", ns := "default" }]

end Driver

namespace Driver

/-! ### Theorems -/

/-- Claim C3: for every pod record, the eviction-eligibility filter
returns false iff the pod carries the mirror-pod annotation, has an owner
reference of kind DaemonSet, has a deletion timestamp set, or is in phase
Succeeded or Failed; for all other pods it returns true. -/
theorem isEvictable_false_iff (p : Pod) :
    isEvictable p = false ↔
      ((p.annotations.lookup mirrorAnnotationKey).isSome = true ∨
       (∃ ref ∈ p.ownerReferences, ref.kind = "DaemonSet") ∨
       p.deletionTimestamp.isSome = true ∨
       p.phase = "Succeeded" ∨ p.phase = "Failed") := by
  unfold isEvictable
  split
  next h1 => exact iff_of_true rfl (Or.inl h1)
  next h1 =>
    split
    next h2 =>
      have h2' : ∃ ref ∈ p.ownerReferences, ref.kind = "DaemonSet" := by
        simpa using h2
      exact iff_of_true rfl (Or.inr (Or.inl h2'))
    next h2 =>
      split
      next h3 => exact iff_of_true rfl (Or.inr (Or.inr (Or.inl h3)))
      next h3 =>
        split
        next h4 =>
          have h4' : p.phase = "Succeeded" ∨ p.phase = "Failed" := by
            simpa using h4
          exact iff_of_true rfl (Or.inr (Or.inr (Or.inr h4')))
        next h4 =>
          apply iff_of_false (by simp)
          have h2' : ¬ ∃ ref ∈ p.ownerReferences, ref.kind = "DaemonSet" := by
            simpa using h2
          have h4' : ¬ (p.phase = "Succeeded" ∨ p.phase = "Failed") := by
            simpa using h4
          rintro (h | h | h | h | h)
          · exact h1 h
          · exact h2' h
          · exact h3 h
          · exact h4' (Or.inl h)
          · exact h4' (Or.inr h)

/-- How `cordonNode` acts on the concrete cluster: a no-op on an already
unschedulable node, otherwise a single counted write. -/
lemma cordonNode_sim (n : String) (s : Cluster) :
    cordonNode simClient n s =
      if s.node.unschedulable then (.ok (), s)
      else (.ok (), { s with node := { unschedulable := true },
                             nodeWrites := s.nodeWrites + 1 }) := by
  cases h : s.node.unschedulable <;> simp [cordonNode, simClient, h]

/-- How `uncordonNode` acts on the concrete cluster: a no-op on an
already schedulable node, otherwise a single counted write. -/
lemma uncordonNode_sim (n : String) (s : Cluster) :
    uncordonNode simClient n s =
      if s.node.unschedulable then
        (.ok (), { s with node := { unschedulable := false },
                          nodeWrites := s.nodeWrites + 1 })
      else (.ok (), s) := by
  cases h : s.node.unschedulable <;> simp [uncordonNode, simClient, h]

/-- Claim C5: cordon on an already-unschedulable node succeeds without a
write, uncordon on an already-schedulable node succeeds without a write,
and two consecutive cordons (resp. uncordons) leave the node
unschedulable (resp. schedulable) with at most one write issued. -/
theorem cordon_uncordon_idempotent (n : String) (s : Cluster) :
    (s.node.unschedulable = true → cordonNode simClient n s = (.ok (), s)) ∧
    (s.node.unschedulable = false → uncordonNode simClient n s = (.ok (), s)) ∧
    ((cordonNode simClient n (cordonNode simClient n s).2).2.node.unschedulable = true ∧
      (cordonNode simClient n (cordonNode simClient n s).2).2.nodeWrites ≤ s.nodeWrites + 1) ∧
    ((uncordonNode simClient n (uncordonNode simClient n s).2).2.node.unschedulable = false ∧
      (uncordonNode simClient n (uncordonNode simClient n s).2).2.nodeWrites ≤ s.nodeWrites + 1) := by
  cases h : s.node.unschedulable <;>
    simp [cordonNode_sim, uncordonNode_sim, h]

/-- Witness for claim C5 at a concrete cordoned cluster. -/
theorem cordon_uncordon_idempotent_witness :
    cordonNode simClient "w1" clusterCordoned = (.ok (), clusterCordoned) :=
  (cordon_uncordon_idempotent "w1" clusterCordoned).1 rfl

/-- Claim C1: a Drain.End call succeeds at the call level and its
response carries the end condition iff listing the evictable pods of the
node at call time returns an empty list, for every driver in-memory
state; when eligible pods remain the response carries the start condition
again with no error message. -/
theorem drainEnd_complete_iff {σ : Type} (c : Client σ) (d : DrainService)
    (req : EndLifecycleTransitionRequest) (s : σ)
    (hstart : req.start = DrainStarted) (hend : req.endLabel = DrainComplete) :
    ∃ r : HandlerResult σ, EndLifecycleTransition c d req s = .ok r ∧
      (r.resp.lifecycleCondition = DrainComplete ↔
        (listEvictablePods c (if req.nodeName = "" then d.nodeName else req.nodeName) s).1 =
          .ok []) ∧
      (∀ l, (listEvictablePods c (if req.nodeName = "" then d.nodeName else req.nodeName) s).1 =
          .ok l → l ≠ [] →
        r.resp.lifecycleCondition = DrainStarted ∧ r.resp.error = "") := by
  have hne : req.endLabel ≠ MaintenanceComplete := by
    rw [hend]; decide
  refine ⟨endDrain c d req (if req.nodeName = "" then d.nodeName else req.nodeName) s,
    ?_, ?_, ?_⟩
  · simp only [EndLifecycleTransition, if_neg hne, if_pos hend]
  · rcases hL : listEvictablePods c (if req.nodeName = "" then d.nodeName else req.nodeName) s
      with ⟨res, s₁⟩
    cases res with
    | error e =>
      simp only [endDrain, hL]
      exact iff_of_false (by decide) (by simp)
    | ok l =>
      rcases l with _ | ⟨p, l'⟩
      · simp [endDrain, hL, hend]
      · simp [endDrain, hL, hstart, DrainStarted, DrainComplete]
  · intro l hl hlne
    rcases hL : listEvictablePods c (if req.nodeName = "" then d.nodeName else req.nodeName) s
      with ⟨res, s₁⟩
    rw [hL] at hl
    cases res with
    | error e => simp at hl
    | ok l₀ =>
      have hll : l₀ = l := by simpa using hl
      subst hll
      have hlen : l₀.length ≠ 0 := by
        simpa [List.length_eq_zero] using hlne
      simp [endDrain, hL, hlen, hstart]

/-- Witness for claim C1: a drain-complete End call over an empty pod
population returns the end condition. -/
theorem drainEnd_complete_iff_witness :
    EndLifecycleTransition simClient svc0 endReqDrain clusterCordoned =
      .ok (endDrain simClient svc0 endReqDrain "n1" clusterCordoned) ∧
    (endDrain simClient svc0 endReqDrain "n1" clusterCordoned).resp.lifecycleCondition =
      DrainComplete := by
  obtain ⟨r, hr, hiff, _⟩ :=
    drainEnd_complete_iff simClient svc0 endReqDrain clusterCordoned rfl rfl
  have h2 : EndLifecycleTransition simClient svc0 endReqDrain clusterCordoned =
      .ok (endDrain simClient svc0 endReqDrain "n1" clusterCordoned) := rfl
  have hr' : r = endDrain simClient svc0 endReqDrain "n1" clusterCordoned := by
    rw [hr] at h2
    simpa using h2
  subst hr'
  exact ⟨hr, hiff.mpr rfl⟩

/-- A concatenation whose first operand is non-empty is non-empty. -/
lemma append_ne_empty (a b : String) (h : a ≠ "") : a ++ b ≠ "" := by
  intro hc
  apply h
  have hd := congrArg String.data hc
  simp at hd
  exact String.ext hd.1

/-- Claim C4: an Uncordon.End call returns the end condition when the
node is observed schedulable; when the node is observed still
unschedulable it re-issues uncordon (the resulting cluster state is the
state after that re-issued uncordon) and returns the start condition on
success; a failure of the re-issued uncordon or of the node read is
surfaced as an error response. -/
theorem uncordonEnd_retry {σ : Type} (c : Client σ) (d : DrainService)
    (req : EndLifecycleTransitionRequest) (s : σ)
    (hstart : req.start = Uncordoning) (hend : req.endLabel = MaintenanceComplete) :
    ∃ r : HandlerResult σ, EndLifecycleTransition c d req s = .ok r ∧
      (∀ node s₁,
        c.getNode (if req.nodeName = "" then d.nodeName else req.nodeName) s =
          (.ok node, s₁) →
        (node.unschedulable = false →
          r.resp.lifecycleCondition = MaintenanceComplete ∧ r.resp.error = "") ∧
        (node.unschedulable = true →
          (∀ s₂, uncordonNode c (if req.nodeName = "" then d.nodeName else req.nodeName) s₁ =
              (.ok (), s₂) →
            r.resp.lifecycleCondition = Uncordoning ∧ r.resp.error = "" ∧ r.state = s₂) ∧
          (∀ e s₂, uncordonNode c (if req.nodeName = "" then d.nodeName else req.nodeName) s₁ =
              (.error e, s₂) →
            r.resp.error = "uncordon node: " ++ e ∧ r.resp.error ≠ "" ∧
            r.resp.lifecycleCondition = ""))) ∧
      (∀ e s₁,
        c.getNode (if req.nodeName = "" then d.nodeName else req.nodeName) s =
          (.error e, s₁) →
        r.resp.error = "get node: " ++ e ∧ r.resp.error ≠ "" ∧
        r.resp.lifecycleCondition = "") := by
  refine ⟨endUncordon c d req (if req.nodeName = "" then d.nodeName else req.nodeName) s,
    ?_, ?_, ?_⟩
  · simp only [EndLifecycleTransition, if_pos hend]
  · intro node s₁ hg
    constructor
    · intro hsched
      simp [endUncordon, hg, hsched, hend]
    · intro hunsched
      constructor
      · intro s₂ hu
        simp [endUncordon, hg, hunsched, hu, hstart]
      · intro e s₂ hu
        simp only [endUncordon, hg, hunsched, Bool.not_true, Bool.false_eq_true,
          if_false, hu]
        exact ⟨trivial, append_ne_empty _ _ (by decide), trivial⟩
  · intro e s₁ hg
    simp only [endUncordon, hg]
    exact ⟨trivial, append_ne_empty _ _ (by decide), trivial⟩

/-- Witness for claim C4: an Uncordon.End call against a schedulable
node returns the maintenance-complete condition with no error. -/
theorem uncordonEnd_retry_witness :
    (endUncordon simClient svc0 endReqUncordon "n1" clusterSched).resp.lifecycleCondition =
      MaintenanceComplete ∧
    (endUncordon simClient svc0 endReqUncordon "n1" clusterSched).resp.error = "" := by
  obtain ⟨r, hr, hok, _⟩ :=
    uncordonEnd_retry simClient svc0 endReqUncordon clusterSched rfl rfl
  have h2 : EndLifecycleTransition simClient svc0 endReqUncordon clusterSched =
      .ok (endUncordon simClient svc0 endReqUncordon "n1" clusterSched) := rfl
  have hr' : r = endUncordon simClient svc0 endReqUncordon "n1" clusterSched := by
    rw [hr] at h2
    simpa using h2
  subst hr'
  exact (hok { unschedulable := false } clusterSched rfl).1 rfl

/-- Claim C8: in every response produced by the four phase handlers, a
non-empty error message and a non-empty condition label are mutually
exclusive: at least one of the two fields is empty. -/
theorem response_error_condition_exclusive {σ : Type} (c : Client σ) (d : DrainService)
    (sreq : StartLifecycleTransitionRequest) (ereq : EndLifecycleTransitionRequest)
    (t : String) (s : σ) :
    ((startDrain c d sreq t s).resp.error = "" ∨
      (startDrain c d sreq t s).resp.lifecycleCondition = "") ∧
    ((startUncordon c d sreq t s).resp.error = "" ∨
      (startUncordon c d sreq t s).resp.lifecycleCondition = "") ∧
    ((endDrain c d ereq t s).resp.error = "" ∨
      (endDrain c d ereq t s).resp.lifecycleCondition = "") ∧
    ((endUncordon c d ereq t s).resp.error = "" ∨
      (endUncordon c d ereq t s).resp.lifecycleCondition = "") := by
  refine ⟨?_, ?_, ?_, ?_⟩
  · rcases h : cordonNode c t s with ⟨res, s₁⟩
    cases res <;> simp [startDrain, h]
  · rcases h : uncordonNode c t s with ⟨res, s₁⟩
    cases res <;> simp [startUncordon, h]
  · rcases h : listEvictablePods c t s with ⟨res, s₁⟩
    cases res with
    | error e => simp [endDrain, h]
    | ok pods => by_cases hp : pods.length = 0 <;> simp [endDrain, h, hp]
  · rcases h : c.getNode t s with ⟨res, s₁⟩
    cases res with
    | error e => simp [endUncordon, h]
    | ok node =>
      cases hn : node.unschedulable
      · simp [endUncordon, h, hn]
      · rcases hu : uncordonNode c t s₁ with ⟨res₂, s₂⟩
        cases res₂ <;> simp [endUncordon, h, hn, hu]

/-- Claim C6: a Start call whose start condition label is unrecognized,
and an End call whose end condition label is unrecognized, fail at the
call level (an error is returned from the remote call, with no response
payload) rather than inside a response payload. -/
theorem unrecognizedLabel_call_error {σ : Type} (c : Client σ) (d : DrainService)
    (sreq : StartLifecycleTransitionRequest) (ereq : EndLifecycleTransitionRequest) (s : σ)
    (h1 : sreq.start ≠ DrainStarted) (h2 : sreq.start ≠ Uncordoning)
    (h3 : ereq.endLabel ≠ DrainComplete) (h4 : ereq.endLabel ≠ MaintenanceComplete) :
    StartLifecycleTransition c d sreq s =
      .error ("driver does not support transition \"" ++ sreq.start ++
        "\" in StartLifecycleTransition") ∧
    EndLifecycleTransition c d ereq s =
      .error ("driver does not support transition \"" ++ ereq.endLabel ++
        "\" in EndLifecycleTransition") := by
  constructor
  · simp [StartLifecycleTransition, h1, h2]
  · simp [EndLifecycleTransition, h3, h4]

/-- Witness for claim C6 at concrete requests with a bogus label. -/
theorem unrecognizedLabel_call_error_witness :
    StartLifecycleTransition (failClient "x") svc0 startReqBad () =
      .error ("driver does not support transition \"" ++ startReqBad.start ++
        "\" in StartLifecycleTransition") ∧
    EndLifecycleTransition (failClient "x") svc0 endReqBad () =
      .error ("driver does not support transition \"" ++ endReqBad.endLabel ++
        "\" in EndLifecycleTransition") :=
  unrecognizedLabel_call_error (failClient "x") svc0 startReqBad endReqBad ()
    (by decide) (by decide) (by decide) (by decide)

/-- Claim C10: a Start or End call whose request carries an empty target
node name dispatches the handler on the driver's configured node name. -/
theorem emptyNodeName_substitution {σ : Type} (c : Client σ) (d : DrainService)
    (sreq : StartLifecycleTransitionRequest) (ereq : EndLifecycleTransitionRequest) (s : σ)
    (hs : sreq.nodeName = "") (he : ereq.nodeName = "") :
    (sreq.start = DrainStarted → StartLifecycleTransition c d sreq s =
      .ok (startDrain c d sreq d.nodeName s)) ∧
    (sreq.start = Uncordoning → StartLifecycleTransition c d sreq s =
      .ok (startUncordon c d sreq d.nodeName s)) ∧
    (ereq.endLabel = DrainComplete → EndLifecycleTransition c d ereq s =
      .ok (endDrain c d ereq d.nodeName s)) ∧
    (ereq.endLabel = MaintenanceComplete → EndLifecycleTransition c d ereq s =
      .ok (endUncordon c d ereq d.nodeName s)) := by
  refine ⟨?_, ?_, ?_, ?_⟩
  · intro h
    have hne : ¬ sreq.start = Uncordoning := by
      rw [h]; decide
    simp [StartLifecycleTransition, hs, h, hne, DrainStarted, Uncordoning]
  · intro h
    simp [StartLifecycleTransition, hs, h, Uncordoning]
  · intro h
    have hne : ¬ ereq.endLabel = MaintenanceComplete := by
      rw [h]; decide
    simp [EndLifecycleTransition, he, h, hne, DrainComplete, MaintenanceComplete]
  · intro h
    simp [EndLifecycleTransition, he, h, MaintenanceComplete]

/-- Witness for claim C10: a drain Start request with an empty node name
is dispatched on the driver's configured node. -/
theorem emptyNodeName_substitution_witness :
    StartLifecycleTransition simClient svc0 { startReqDrain with nodeName := "" }
        clusterSched =
      .ok (startDrain simClient svc0 { startReqDrain with nodeName := "" }
        svc0.nodeName clusterSched) :=
  (emptyNodeName_substitution simClient svc0 { startReqDrain with nodeName := "" }
    { endReqDrain with nodeName := "" } clusterSched rfl rfl).1 rfl

/-- Counterexample to claim C2 as stated: on a Drain.Start call whose
cordon fails (every cluster operation errors), the response carries a
non-empty error and no condition, yet the active event identifier has
still been recorded (it was empty before the call) and the error map
cleared — recording is not conditional on cordon success. -/
theorem startDrain_records_event_despite_cordon_failure :
    StartLifecycleTransition (failClient "boom") svc0 startReqDrain () =
      .ok { resp := { nodeName := "n1", error := "cordon node: boom" },
            svc := { svc0 with activeEvent := "ev1" }, state := (), sweep := none } ∧
    svc0.activeEvent = "" := ⟨rfl, rfl⟩

/-- Claim C2 as amended: Drain.Start records the event id and clears the
error map unconditionally at the start of the call (not only when cordon
succeeds); if cordon fails the response carries a non-empty error and no
condition label and no sweep is launched; on cordon success the call
launches the background sweep and returns the start condition with the
cluster state exactly as cordon left it (no eviction awaited). -/
theorem startDrain_behavior {σ : Type} (c : Client σ) (d : DrainService)
    (req : StartLifecycleTransitionRequest) (s : σ)
    (hstart : req.start = DrainStarted) :
    ∃ r : HandlerResult σ, StartLifecycleTransition c d req s = .ok r ∧
      r.svc.activeEvent = req.eventName ∧ r.svc.evictionErrors = [] ∧
      (∀ e s₁, cordonNode c (if req.nodeName = "" then d.nodeName else req.nodeName) s =
          (.error e, s₁) →
        r.resp.error = "cordon node: " ++ e ∧ r.resp.error ≠ "" ∧
        r.resp.lifecycleCondition = "" ∧ r.sweep = none) ∧
      (∀ u s₁, cordonNode c (if req.nodeName = "" then d.nodeName else req.nodeName) s =
          (.ok u, s₁) →
        r.resp.lifecycleCondition = DrainStarted ∧ r.resp.error = "" ∧
        r.sweep = some (if req.nodeName = "" then d.nodeName else req.nodeName) ∧
        r.state = s₁) := by
  have hne : ¬ req.start = Uncordoning := by
    rw [hstart]; decide
  refine ⟨startDrain c d req (if req.nodeName = "" then d.nodeName else req.nodeName) s,
    ?_, ?_, ?_, ?_, ?_⟩
  · simp only [StartLifecycleTransition]
    rw [if_neg hne, if_pos hstart]
  · rcases hc : cordonNode c (if req.nodeName = "" then d.nodeName else req.nodeName) s
      with ⟨res, s₁⟩
    cases res <;> simp [startDrain, hc]
  · rcases hc : cordonNode c (if req.nodeName = "" then d.nodeName else req.nodeName) s
      with ⟨res, s₁⟩
    cases res <;> simp [startDrain, hc]
  · intro e s₁ hc
    simp [startDrain, hc]
    exact append_ne_empty _ _ (by decide)
  · intro u s₁ hc
    cases u
    simp [startDrain, hc, hstart]

/-- Witness for the amended claim C2: a successful Drain.Start on a
schedulable cluster returns the start condition and records the event. -/
theorem startDrain_behavior_witness :
    (startDrain simClient svc0 startReqDrain "n1" clusterSched).resp.lifecycleCondition =
      DrainStarted ∧
    (startDrain simClient svc0 startReqDrain "n1" clusterSched).svc.activeEvent = "ev1" ∧
    (startDrain simClient svc0 startReqDrain "n1" clusterSched).sweep = some "n1" := by
  obtain ⟨r, hr, hev, herrs, _, hok⟩ :=
    startDrain_behavior simClient svc0 startReqDrain clusterSched rfl
  have h2 : StartLifecycleTransition simClient svc0 startReqDrain clusterSched =
      .ok (startDrain simClient svc0 startReqDrain "n1" clusterSched) := rfl
  have hr' : r = startDrain simClient svc0 startReqDrain "n1" clusterSched := by
    rw [hr] at h2
    simpa using h2
  subst hr'
  have hco := hok ()
    { node := { unschedulable := true }, pods := [], nodeWrites := 1,
      evictRes := fun _ => .ok } rfl
  exact ⟨hco.1, hev, hco.2.2.1⟩

/-- Claim C9: an eviction call that reports NotFound is treated as
success: `evictPod` returns no error, and within the sweep loop such a
pod is counted as evicted, not failed. -/
theorem evictPod_notFound_success {σ : Type} (c : Client σ) (d : DrainService)
    (p : podInfo) (s s₁ : σ)
    (h : c.evictV1 p (deleteOptions d) s = (.notFound, s₁)) :
    evictPod c d p s = (none, s₁) ∧
    ∀ rest e f, evictLoop c d (p :: rest) s e f = evictLoop c d rest s₁ (e + 1) f := by
  constructor
  · simp [evictPod, h]
  · intro rest e f
    simp [evictLoop, evictPod, h]

/-- Witness for claim C9 at a client whose eviction reports NotFound. -/
theorem evictPod_notFound_success_witness :
    evictPod notFoundClient svc0 { name := "app", ns := "default" } () = (none, ()) :=
  (evictPod_notFound_success notFoundClient svc0 { name := "app", ns := "default" }
    () () rfl).1

/-- Each iteration of the eviction loop increments exactly one of the
two counters, so evicted + failed grows by the list length. -/
lemma evictLoop_counts {σ : Type} (c : Client σ) (l : List podInfo) :
    ∀ (d : DrainService) (s : σ) (e f : Nat),
      (evictLoop c d l s e f).1.1 + (evictLoop c d l s e f).1.2 = e + f + l.length := by
  induction l with
  | nil => intro d s e f; simp [evictLoop]
  | cons p rest ih =>
    intro d s e f
    rcases hp : evictPod c d p s with ⟨res, s₁⟩
    cases res with
    | none =>
      simp only [evictLoop, hp, List.length_cons]
      have h := ih d s₁ (e + 1) f
      omega
    | some m =>
      simp only [evictLoop, hp, List.length_cons]
      have h := ih { d with evictionErrors := insertErr d.evictionErrors (podKey p) m }
        s₁ e (f + 1)
      omega

/-- Looking up the key just inserted yields the inserted value. -/
lemma lookup_insertErr_self (m : List (String × String)) (k v : String) :
    (insertErr m k v).lookup k = some v := by
  induction m with
  | nil => simp [insertErr, List.lookup]
  | cons kv rest ih =>
    rcases kv with ⟨k₀, v₀⟩
    by_cases h : k₀ = k
    · simp [insertErr, h, List.lookup]
    · have hb : (k == k₀) = false := beq_eq_false_iff_ne.mpr (Ne.symm h)
      simp [insertErr, h, List.lookup, hb, ih]

/-- Inserting under one key leaves lookups of other keys unchanged. -/
lemma lookup_insertErr_ne (m : List (String × String)) (k k' v : String)
    (h : k' ≠ k) :
    (insertErr m k v).lookup k' = m.lookup k' := by
  have hb : (k' == k) = false := beq_eq_false_iff_ne.mpr h
  induction m with
  | nil => simp [insertErr, List.lookup, hb]
  | cons kv rest ih =>
    rcases kv with ⟨k₀, v₀⟩
    by_cases hk : k₀ = k
    · subst hk
      simp [insertErr, List.lookup, hb]
    · cases hkb : (k' == k₀) <;> simp [insertErr, hk, List.lookup, hkb, ih]

/-- On the concrete cluster, evicting a pod returns the error fixed by
the cluster's eviction outcome and leaves the cluster unchanged. -/
lemma evictPod_sim (d : DrainService) (p : podInfo) (s : Cluster) :
    evictPod simClient d p s =
      ((match s.evictRes p with
        | .err m => some m
        | _ => none), s) := by
  cases h : s.evictRes p <;> simp [evictPod, simClient, h]

/-- An error-map entry survives the rest of the loop when every later
pod with the same key fails with the same message. -/
lemma evictLoop_lookup_stable (l : List podInfo) :
    ∀ (d : DrainService) (s : Cluster) (e f : Nat) (k m : String),
      d.evictionErrors.lookup k = some m →
      (∀ r ∈ l, podKey r = k → s.evictRes r = .err m) →
      (evictLoop simClient d l s e f).2.1.evictionErrors.lookup k = some m := by
  induction l with
  | nil => intro d s e f k m h _; simpa [evictLoop] using h
  | cons p rest ih =>
    intro d s e f k m h hall
    have hall' : ∀ r ∈ rest, podKey r = k → s.evictRes r = .err m := by
      intro r hr hrk
      exact hall r (List.mem_cons_of_mem _ hr) hrk
    cases hp : s.evictRes p with
    | ok =>
      simp only [evictLoop, evictPod_sim, hp]
      exact ih d s (e + 1) f k m h hall'
    | notFound =>
      simp only [evictLoop, evictPod_sim, hp]
      exact ih d s (e + 1) f k m h hall'
    | err mp =>
      simp only [evictLoop, evictPod_sim, hp]
      apply ih _ s e (f + 1) k m ?_ hall'
      by_cases hk : podKey p = k
      · have hpm : mp = m := by
          have hline := hall p (List.mem_cons_self p rest) hk
          rw [hp] at hline
          simpa using hline
        subst hpm
        rw [hk]
        exact lookup_insertErr_self _ _ _
      · rw [lookup_insertErr_ne _ _ _ _ (Ne.symm hk)]
        exact h

/-- Every pod of the loop's list that fails with message m ends up in
the error map under its key, provided keys identify pods in the list. -/
lemma evictLoop_records (l : List podInfo) :
    ∀ (d : DrainService) (s : Cluster) (e f : Nat),
      (∀ p ∈ l, ∀ q ∈ l, podKey p = podKey q → p = q) →
      ∀ p ∈ l, ∀ m, s.evictRes p = .err m →
      (evictLoop simClient d l s e f).2.1.evictionErrors.lookup (podKey p) = some m := by
  induction l with
  | nil => intro d s e f _ p hp; exact absurd hp (List.not_mem_nil p)
  | cons q rest ih =>
    intro d s e f hinj p hp m hm
    have hinj' : ∀ a ∈ rest, ∀ b ∈ rest, podKey a = podKey b → a = b := by
      intro a ha b hb hab
      exact hinj a (List.mem_cons_of_mem _ ha) b (List.mem_cons_of_mem _ hb) hab
    cases hq : s.evictRes q with
    | ok =>
      simp only [evictLoop, evictPod_sim, hq]
      rcases List.mem_cons.mp hp with hpq | hpr
      · subst hpq
        rw [hm] at hq
        simp at hq
      · exact ih d s (e + 1) f hinj' p hpr m hm
    | notFound =>
      simp only [evictLoop, evictPod_sim, hq]
      rcases List.mem_cons.mp hp with hpq | hpr
      · subst hpq
        rw [hm] at hq
        simp at hq
      · exact ih d s (e + 1) f hinj' p hpr m hm
    | err mq =>
      simp only [evictLoop, evictPod_sim, hq]
      rcases List.mem_cons.mp hp with hpq | hpr
      · subst hpq
        have hmq : m = mq := by
          rw [hm] at hq
          simpa using hq
        subst hmq
        apply evictLoop_lookup_stable
        · exact lookup_insertErr_self _ _ _
        · intro r hr hrk
          have hrp : r = p := hinj r (List.mem_cons_of_mem _ hr) p
            (List.mem_cons_self p rest) hrk
          rw [hrp]
          exact hm
      · exact ih _ s e (f + 1) hinj' p hpr m hm

/-- Claim C7: when the listing yields pod list l whose eviction fails
for a strict subset (keys identifying pods), the sweep still processes
all of l: total = length l, evicted + failed = total, and each failed
pod's error message is recorded in the error map under its key. -/
theorem sweep_resilient (d : DrainService) (n : String) (s : Cluster)
    (l : List podInfo)
    (hl : listEvictablePods simClient n s = (.ok l, s))
    (hinj : ∀ p ∈ l, ∀ q ∈ l, podKey p = podKey q → p = q)
    (_hfail : ∃ p ∈ l, ∃ m, s.evictRes p = .err m)
    (_hsucc : ∃ p ∈ l, ∀ m, s.evictRes p ≠ .err m) :
    (evictAllPods simClient d n s).1.2.2 = l.length ∧
    (evictAllPods simClient d n s).1.1 + (evictAllPods simClient d n s).1.2.1 =
      l.length ∧
    (∀ p ∈ l, ∀ m, s.evictRes p = .err m →
      (evictAllPods simClient d n s).2.1.evictionErrors.lookup (podKey p) = some m) := by
  simp only [evictAllPods, hl]
  refine ⟨trivial, ?_, ?_⟩
  · have h := evictLoop_counts simClient l d s 0 0
    simpa using h
  · intro p hp m hm
    exact evictLoop_records l d s 0 0 hinj p hp m hm

/-- Witness for claim C7: three eligible pods of which exactly one fails
eviction; the sweep reports 3 total, evicted + failed = 3, and records
the failing pod's error. -/
theorem sweep_resilient_witness :
    (evictAllPods simClient svc0 "n1" clusterMixed).1.2.2 = 3 ∧
    (evictAllPods simClient svc0 "n1" clusterMixed).1.1 +
      (evictAllPods simClient svc0 "n1" clusterMixed).1.2.1 = 3 ∧
    (evictAllPods simClient svc0 "n1" clusterMixed).2.1.evictionErrors.lookup
      "default/app-b" = some "pdb blocked" := by
  obtain ⟨ht, hc, hrec⟩ := sweep_resilient svc0 "n1" clusterMixed podInfos3 rfl
    (by decide)
    ⟨{ name := "app-b", ns := "default" }, by decide, "pdb blocked", rfl⟩
    ⟨{ name := "app", ns := "default" }, by decide,
      fun m hmm => by simp [clusterMixed] at hmm⟩
  exact ⟨ht, hc, hrec { name := "app-b", ns := "default" } (by decide) "pdb blocked" rfl⟩

end Driver
